import Mathlib

/-!
Verification of the execution-engine core of the CasperLabs repository.

Each section shallowly embeds one source file:
* `Engine`      — src/execution-engine/engine/src/engine.rs
* `Merge`       — the transform merge algebra of spec §4.3 (its source is not
                  in this tree; modelled from the spec)
* `MainPurse`   — src/execution-engine/contracts/test/main-purse/src/lib.rs
* `CheckUrefs`  — src/execution-engine/contracts/test/check-system-contract-urefs-access-rights/src/lib.rs
* `TestSupport` — src/execution-engine/engine-test-support/src/internal/utils.rs
-/

namespace Engine

/-- Raw deploy bytes (`&[u8]` in the source). -/
abbrev Bytes : Type := List UInt8

/-- Entry address (`[u8; 20]` in the source; the fixed length plays no role in
the claims, so a byte list stands in for the array). -/
abbrev Address : Type := List UInt8

/-- `enum Error` of engine.rs.  `E` is the external `execution::Error`,
`S` the external `storage::Error`; both are opaque to this file, so they are
type parameters. -/
inductive Error (E S : Type) where
  | preprocessingError (error : String)
  | signatureError (error : String)
  | execError (e : E)
  | storageError (e : S)
  deriving DecidableEq, Repr

/-- `impl From<storage::Error> for Error` (engine.rs lines 24–28): the storage
error is wrapped uninterpreted. -/
def fromStorageError {E S : Type} (e : S) : Error E S :=
  Error.storageError e

/-- `impl From<ExecutionError> for Error` (engine.rs lines 30–34). -/
def fromExecutionError {E S : Type} (e : E) : Error E S :=
  Error.execError e

/-- `struct EngineState<T, G>`: holds the global state `G`
(the `PhantomData` field carries no data and is dropped). -/
structure EngineState (G : Type) where
  state : G

/-- `EngineState::preprocess_module`: runs the external preprocessor
`process : &[u8] -> Result<Module, String>` (passed as the function argument
`process`, since wasm_prep is outside this tree) and wraps its error string
verbatim into `Error::PreprocessingError`. -/
def preprocess_module {M E S : Type} (process : Bytes → Except String M)
    (module_bytes : Bytes) : Except (Error E S) M :=
  (process module_bytes).mapError (fun err_str => Error.preprocessingError err_str)

/-- `EngineState::run_deploy`.  The external interpreter
`exec(module, address, &state)` takes the state by shared reference; per the
spec (§5) executions are pure with respect to Global State, so `exec` is
modelled as a pure function `M → Address → G → Except E F` where `F` is the
effect-set type.  The engine state observable after the call is returned as
the second component: `run_deploy` takes `&self`, so it is the input state. -/
def run_deploy {M E S F G : Type} (process : Bytes → Except String M)
    (exec : M → Address → G → Except E F) (s : EngineState G)
    (module_bytes : Bytes) (address : Address) :
    Except (Error E S) F × EngineState G :=
  match preprocess_module process module_bytes with
  | Except.error e => (Except.error e, s)
  | Except.ok m => ((exec m address s.state).mapError fromExecutionError, s)

/-- `EngineState::apply_effect` (engine.rs lines 58–60): forwards to the
store's `apply` (a method of the external `GlobalState` trait, passed as the
function argument `applyFn`; per spec §4.4 a failed commit leaves the store
unchanged) and wraps a storage error via `From`/`into`.  It takes `&mut self`,
so the updated engine state is returned alongside the result. -/
def apply_effect {E S G K T : Type} (applyFn : G → K → T → Except S G)
    (s : EngineState G) (key : K) (eff : T) :
    Except (Error E S) Unit × EngineState G :=
  match applyFn s.state key eff with
  | Except.ok g2 => (Except.ok (), EngineState.mk g2)
  | Except.error err => (Except.error (fromStorageError err), s)

/-- `EngineState::validate_signatures` (engine.rs lines 68–75): the body is
the stub `Ok(String::from("OK"))`, marked `//TODO return proper error`. -/
def validate_signatures {E S G : Type} (_s : EngineState G) (_deploy : Bytes)
    (_signature : Bytes) (_signature_alg : String) : Except (Error E S) String :=
  Except.ok "OK"

/-- Instrumented store `apply`: behaves exactly like `applyFn` but counts, in
the second component of the state (and of the error), how many times it has
been invoked.  Used to express that `apply_effect` calls the store exactly
once. -/
def countingApply {S G K T : Type} (applyFn : G → K → T → Except S G) :
    G × Nat → K → T → Except (S × Nat) (G × Nat) :=
  fun gn k t =>
    match applyFn gn.1 k t with
    | Except.ok g2 => Except.ok (g2, gn.2 + 1)
    | Except.error e => Except.error (e, gn.2 + 1)

end Engine

namespace Merge

/-- Modelled from the spec: the stored payload (§3 "Value") of the transform
algebra, which is absent from this tree.  Only numeric/accumulator values
support `Add`; every other payload supports only `Write` (§3). -/
inductive Value where
  | intVal (n : Int)
  | dataVal (bytes : List UInt8)
  deriving DecidableEq, Repr

/-- Modelled from the spec: a value-level delta (§3 "Transform"),
`Write(Value)` or `Add(Delta)`, with the accumulator delta numeric. -/
inductive Transform where
  | write (v : Value)
  | add (d : Int)
  deriving DecidableEq, Repr

/-- Modelled from the spec: the failure of §4.3, an `Add` merged onto a value
that is not accumulator-compatible. -/
inductive MergeError where
  | typeMismatch
  deriving DecidableEq, Repr

/-- Modelled from the spec: one row lookup of the §4.3 merge table.  The first
argument is the pending transform T1 (`none` for the table's "(absent)" row),
the second the newly observed T2. -/
def mergeStep : Option Transform → Transform → Except MergeError (Option Transform)
  | none, t => Except.ok (some t)
  | some (Transform.write _), Transform.write v2 =>
      Except.ok (some (Transform.write v2))
  | some (Transform.write (Value.intVal n)), Transform.add d =>
      Except.ok (some (Transform.write (Value.intVal (n + d))))
  | some (Transform.write (Value.dataVal _)), Transform.add _ =>
      Except.error MergeError.typeMismatch
  | some (Transform.add _), Transform.write v2 =>
      Except.ok (some (Transform.write v2))
  | some (Transform.add d1), Transform.add d2 =>
      Except.ok (some (Transform.add (d1 + d2)))

/-- Modelled from the spec: fold the §4.3 merge table left-to-right over the
transforms recorded against one key, starting from the "(absent)" row. -/
def mergeList (acc : Option Transform) : List Transform → Except MergeError (Option Transform)
  | [] => Except.ok acc
  | t :: ts =>
    match mergeStep acc t with
    | Except.ok acc2 => mergeList acc2 ts
    | Except.error e => Except.error e

/-- The merged transform of a recorded sequence. -/
def mergeAll (ts : List Transform) : Except MergeError (Option Transform) :=
  mergeList none ts

end Merge

namespace MainPurse

/-- Stand-in for `contract_ffi::value::account::PurseId` (outside this tree);
only its decidable equality is used by the contract. -/
structure PurseId where
  value : Nat
  deriving DecidableEq, Repr

/-- The `enum Error` of main-purse/src/lib.rs. -/
inductive ContractError where
  | missingArgument
  | invalidArgument
  deriving DecidableEq, Repr

/-- The discriminant values of the `enum Error` (`Error::MissingArgument as
u32` etc.). -/
def ContractError.code : ContractError → Nat
  | ContractError.missingArgument => 100
  | ContractError.invalidArgument => 101

/-- Observable outcome of running the contract's `call`: a `revert(code)`,
an `assert_eq!` failure, or a normal return. -/
inductive Outcome where
  | revert (code : Nat)
  | assertionFailure (msg : String)
  | ok
  deriving DecidableEq, Repr

/-- `call()` of main-purse/src/lib.rs.  `arg0` is the host's answer to
`contract_api::get_arg(0)` — `None` when the argument is missing, `Some(Err)`
when it is present but fails type decoding — and `main_purse` the host's
answer to `contract_api::main_purse()`. -/
def call (arg0 : Option (Except String PurseId)) (main_purse : PurseId) : Outcome :=
  match arg0 with
  | none => Outcome.revert ContractError.missingArgument.code
  | some (Except.error _) => Outcome.revert ContractError.invalidArgument.code
  | some (Except.ok known_main_purse) =>
      if main_purse = known_main_purse then Outcome.ok
      else Outcome.assertionFailure "main purse was not known purse"

end MainPurse

namespace CheckUrefs

/-- Stand-in for `contract_ffi::uref::AccessRights`: the three independent
capability flags (§3 of the spec). -/
structure AccessRights where
  readable : Bool
  writeable : Bool
  addable : Bool
  deriving DecidableEq, Repr

/-- `AccessRights::is_readable`. -/
def AccessRights.is_readable (ar : AccessRights) : Bool := ar.readable

/-- `AccessRights::is_writeable`. -/
def AccessRights.is_writeable (ar : AccessRights) : Bool := ar.writeable

/-- `AccessRights::is_addable`. -/
def AccessRights.is_addable (ar : AccessRights) : Bool := ar.addable

/-- Stand-in for `contract_ffi::uref::URef`: an address plus optional access
rights (`URef::access_rights` returns `Option<AccessRights>`). -/
structure URef where
  addr : Nat
  access_rights : Option AccessRights
  deriving DecidableEq, Repr

/-- Stand-in for `contract_ffi::key::Key` as used by the contract: only the
`URef` variant matters to `Key::as_uref`. -/
inductive Key where
  | uref (u : URef)
  | hashKey (h : Nat)
  | account (a : Nat)
  deriving DecidableEq, Repr

/-- `Key::as_uref`. -/
def Key.as_uref : Key → Option URef
  | Key.uref u => some u
  | _ => none

/-- Rust's `Iterator::all(&mut self, p)`: consumes elements from the front
until `p` fails (or the iterator is exhausted), returning the verdict together
with the elements REMAINING in the iterator afterwards.  The contract calls
`.all` three times on one `mut` iterator, so this leftover matters. -/
def iterAll {α : Type} (p : α → Bool) : List α → Bool × List α
  | [] => (true, [])
  | x :: xs => if p x then iterAll p xs else (false, xs)

/-- The access-rights stream the contract builds:
`named_keys.values().filter_map(Key::as_uref).filter_map(URef::access_rights)`.
`named_keys` is the value list of the named-keys map. -/
def accessRightsList (named_keys : List Key) : List AccessRights :=
  (named_keys.filterMap Key.as_uref).filterMap URef.access_rights

/-- Observable outcome of the contract's `call`: an `assert!` failure (trap)
or a normal return. -/
inductive Outcome where
  | trap
  | ok
  deriving DecidableEq, Repr

/-- `call()` of check-system-contract-urefs-access-rights/src/lib.rs: three
sequential `assert!(iter.all(...))` calls against the SAME iterator, which the
first `.all` consumes. -/
def call (named_keys : List Key) : Outcome :=
  let it0 := accessRightsList named_keys
  let r1 := iterAll (fun ar => ar.is_readable) it0
  if r1.1 then
    let r2 := iterAll (fun ar => !ar.is_addable) r1.2
    if r2.1 then
      let r3 := iterAll (fun ar => !ar.is_writeable) r2.2
      if r3.1 then Outcome.ok else Outcome.trap
    else Outcome.trap
  else Outcome.trap

end CheckUrefs

namespace TestSupport

/-- Stand-in for `types::Key` of the newer test-support layer; `get_account`
needs only its decidable equality, supplied by the transform map itself. -/
abbrev Key : Type := Nat

/-- Stand-in for `engine_shared::account::Account`; `get_account` only clones
it, so its contents are an identifier. -/
structure Account where
  addr : Nat
  deriving DecidableEq, Repr

/-- Stand-in for `engine_shared::stored_value::StoredValue`: the `Account`
variant that `get_account` matches on, plus non-`Account` variants. -/
inductive StoredValue where
  | account (a : Account)
  | clValue (v : Nat)
  | contractValue (c : Nat)
  deriving DecidableEq, Repr

/-- Stand-in for `engine_shared::transform::Transform`: `Write`, the additive
variants (collapsed to one numeric `Add`), `Identity` and `Failure`. -/
inductive Transform where
  | identity
  | write (v : StoredValue)
  | add (i : Int)
  | failure (msg : String)
  deriving DecidableEq, Repr

/-- `get_account` (utils.rs lines 163–172): looks the key up in the transform
map (`AdditiveMap::get`, modelled as the map's lookup function) and `and_then`
matches `Transform::Write(StoredValue::Account(_))`. -/
def get_account (transforms : Key → Option Transform) (account : Key) : Option Account :=
  (transforms account).bind fun transform =>
    match transform with
    | Transform.write (StoredValue.account a) => some a
    | _ => none

/-- A path as utils.rs uses it: whether `Path::is_relative` holds, and the
text the attempted-locations message displays. -/
structure PathBuf where
  is_relative : Bool
  pathStr : String
  deriving DecidableEq, Repr

/-- `PathBuf::push` of a file name onto a directory path
(`filename.push(contract_file)`). -/
def PathBuf.pushed (dir : PathBuf) (file : PathBuf) : PathBuf :=
  PathBuf.mk dir.is_relative (dir.pathStr ++ "/" ++ file.pathStr)

/-- The file system visible to `fs::read`, as one instant in time: `some
bytes` when the read succeeds, `none` when it fails. -/
abbrev FileSystem : Type := PathBuf → Option (List UInt8)

/-- `get_compiled_wasm_paths` (utils.rs lines 59–71) with the `use-as-wasm`
feature off (its default): the workspace release dir, then the
cargo-casperlabs tool's wasm dir, then — when `CARGO_TARGET_DIR` is set — its
release dir. -/
def get_compiled_wasm_paths (rust_workspace_wasm_path rust_tool_wasm_path : PathBuf)
    (maybe_cargo_target_dir_wasm_path : Option PathBuf) : List PathBuf :=
  [rust_workspace_wasm_path, rust_tool_wasm_path] ++
    (match maybe_cargo_target_dir_wasm_path with
     | some p => [p]
     | none => [])

/-- The `for wasm_path in WASM_PATHS` loop of `read_wasm_file_bytes`: try each
candidate directory joined with the contract file; return early on the first
successful read, otherwise accumulate the attempted path. -/
def tryWasmPaths (fs : FileSystem) (contract_file : PathBuf)
    (attempted : List PathBuf) : List PathBuf → List PathBuf × Option (List UInt8)
  | [] => (attempted, none)
  | w :: ws =>
    let filename := w.pushed contract_file
    match fs filename with
    | some wasm_bytes => (attempted, some wasm_bytes)
    | none => tryWasmPaths fs contract_file (attempted ++ [filename]) ws

/-- `read_wasm_file_bytes` (utils.rs lines 74–102).  The panic (which never
returns a value) is the `Except.error` branch, carrying the attempted paths
the panic message lists. -/
def read_wasm_file_bytes (fs : FileSystem) (wasm_paths : List PathBuf)
    (contract_file : PathBuf) : Except (List PathBuf) (List UInt8) :=
  let loop :=
    if contract_file.is_relative then tryWasmPaths fs contract_file [] wasm_paths
    else ([], none)
  match loop with
  | (_, some wasm_bytes) => Except.ok wasm_bytes
  | (attempted, none) =>
    match fs contract_file with
    | some wasm_bytes => Except.ok wasm_bytes
    | none => Except.error (attempted ++ [contract_file])

/-- First successful read over a path list, in order. -/
def firstHit (fs : FileSystem) : List PathBuf → Option (List UInt8)
  | [] => none
  | p :: ps =>
    match fs p with
    | some b => some b
    | none => firstHit fs ps

/-- The claim's own description of `read_wasm_file_bytes` on a relative path:
the contents of the file found at the first candidate (candidate directories
in the fixed order, then the path as given), and on total failure an error
listing every attempted path. -/
def read_wasm_claimed (fs : FileSystem)
    (rust_workspace_wasm_path rust_tool_wasm_path : PathBuf)
    (maybe_cargo_target_dir_wasm_path : Option PathBuf)
    (contract_file : PathBuf) : Except (List PathBuf) (List UInt8) :=
  let dirs := get_compiled_wasm_paths rust_workspace_wasm_path rust_tool_wasm_path
    maybe_cargo_target_dir_wasm_path
  let attempts := dirs.map (fun d => d.pushed contract_file) ++ [contract_file]
  match firstHit fs attempts with
  | some bytes => Except.ok bytes
  | none => Except.error attempts

end TestSupport

namespace Engine

/-- C1: for every module_bytes, address and engine state, `run_deploy` never
modifies Global State — whether it returns an effect set or any error, the
engine state observable after the call equals the state before it; state
changes happen only through `apply_effect`. -/
theorem run_deploy_state_unchanged {M E S F G : Type}
    (process : Bytes → Except String M)
    (exec : M → Address → G → Except E F) (s : EngineState G)
    (module_bytes : Bytes) (address : Address) :
    (run_deploy (S := S) process exec s module_bytes address).2 = s := by
  unfold run_deploy
  cases h : preprocess_module (E := E) (S := S) process module_bytes <;> simp [h]

/-- Witness for C1 at a concrete engine state. -/
theorem run_deploy_state_unchanged_witness :
    (run_deploy (S := Unit)
        (fun (_ : Bytes) => (Except.ok () : Except String Unit))
        (fun (_ : Unit) (_ : Address) (g : Nat) => (Except.ok g : Except Unit Nat))
        (EngineState.mk 7) [] []).2 = EngineState.mk 7 :=
  run_deploy_state_unchanged _ _ _ _ _

/-- C2: whenever the preprocessor returns `Err(s)`, `run_deploy` returns
`Error::PreprocessingError` carrying exactly the string `s`, the engine state
is untouched, and the result is independent of the interpreter `exec` (which
is therefore never consulted), so the deploy contributes no effects. -/
theorem run_deploy_preprocessing_stops {M E S F G : Type}
    (process : Bytes → Except String M)
    (exec1 exec2 : M → Address → G → Except E F) (s : EngineState G)
    (module_bytes : Bytes) (address : Address) (str : String)
    (h : process module_bytes = Except.error str) :
    run_deploy (S := S) process exec1 s module_bytes address =
      (Except.error (Error.preprocessingError str), s) ∧
    run_deploy (S := S) process exec1 s module_bytes address =
      run_deploy (S := S) process exec2 s module_bytes address := by
  unfold run_deploy preprocess_module
  rw [h]
  exact ⟨rfl, rfl⟩

/-- Witness for C2 at a concrete preprocessor that rejects every input. -/
theorem run_deploy_preprocessing_stops_witness :
    (fun (_ : Bytes) => (Except.error "bad" : Except String Unit)) [] =
      Except.error "bad" ∧
    (run_deploy (S := Unit)
        (fun (_ : Bytes) => (Except.error "bad" : Except String Unit))
        (fun (_ : Unit) (_ : Address) (_ : Unit) => (Except.ok () : Except Unit Unit))
        (EngineState.mk ()) [] [] =
        (Except.error (Error.preprocessingError "bad"), EngineState.mk ()) ∧
      run_deploy (S := Unit)
        (fun (_ : Bytes) => (Except.error "bad" : Except String Unit))
        (fun (_ : Unit) (_ : Address) (_ : Unit) => (Except.ok () : Except Unit Unit))
        (EngineState.mk ()) [] [] =
      run_deploy (S := Unit)
        (fun (_ : Bytes) => (Except.error "bad" : Except String Unit))
        (fun (_ : Unit) (_ : Address) (_ : Unit) => (Except.error () : Except Unit Unit))
        (EngineState.mk ()) [] []) :=
  ⟨rfl, run_deploy_preprocessing_stops _ _ _ _ _ _ _ rfl⟩

/-- C3: `run_deploy` is deterministic — two calls with the same module bytes,
the same entry address and the same global-state snapshot return the same
result (the preprocessor and the interpreter, being modelled as functions per
the spec, answer equal inputs equally). -/
theorem run_deploy_deterministic {M E S F G : Type}
    (process : Bytes → Except String M)
    (exec : M → Address → G → Except E F) (g1 g2 : G)
    (module_bytes : Bytes) (address : Address)
    (h : g1 = g2) :
    run_deploy (S := S) process exec (EngineState.mk g1) module_bytes address =
      run_deploy (S := S) process exec (EngineState.mk g2) module_bytes address := by
  rw [h]

/-- Witness for C3 at a concrete snapshot. -/
theorem run_deploy_deterministic_witness :
    (0 : Nat) = 0 ∧
    run_deploy (S := Unit)
        (fun (_ : Bytes) => (Except.ok () : Except String Unit))
        (fun (_ : Unit) (_ : Address) (g : Nat) => (Except.ok g : Except Unit Nat))
        (EngineState.mk 0) [] [] =
      run_deploy (S := Unit)
        (fun (_ : Bytes) => (Except.ok () : Except String Unit))
        (fun (_ : Unit) (_ : Address) (g : Nat) => (Except.ok g : Except Unit Nat))
        (EngineState.mk 0) [] [] :=
  ⟨rfl, run_deploy_deterministic _ _ 0 0 [] [] rfl⟩

/-- C4: `apply_effect` performs exactly one call to the store's `apply` with
the given key and transform (the instrumented store counts its invocations:
both branches end with count 1); on success the store's new state is adopted
unchanged, and on failure the storage error is returned wrapped uninterpreted
as `Error::StorageError`, with no retry and no other state change. -/
theorem apply_effect_single_apply {E S G K T : Type}
    (applyFn : G → K → T → Except S G) (g : G) (k : K) (t : T) :
    apply_effect (E := E) (countingApply applyFn) (EngineState.mk (g, 0)) k t =
      match applyFn g k t with
      | Except.ok g2 => (Except.ok (), EngineState.mk (g2, 1))
      | Except.error e =>
          (Except.error (Error.storageError (e, 1)), EngineState.mk (g, 0)) := by
  cases h : applyFn g k t <;>
    simp [apply_effect, countingApply, fromStorageError, h]

/-- Witness for C4 at a concrete store whose `apply` adds the transform. -/
theorem apply_effect_single_apply_witness :
    apply_effect (E := Unit)
        (countingApply (fun (g : Nat) (_ : Nat) (t : Nat) =>
          (Except.ok (g + t) : Except Unit Nat)))
        (EngineState.mk (5, 0)) 1 2 =
      (Except.ok (), EngineState.mk (7, 1)) :=
  apply_effect_single_apply
    (fun (g : Nat) (_ : Nat) (t : Nat) => (Except.ok (g + t) : Except Unit Nat))
    5 1 2

/-- C5 (code evaluated at the failing behaviour): `validate_signatures` is a
stub that accepts every deploy with `Ok("OK")`; it never returns a
`SignatureError`, contrary to its own `TODO return proper error`. -/
theorem validate_signatures_always_ok {E S G : Type} (s : EngineState G)
    (deploy sig : Bytes) (sig_alg : String) :
    validate_signatures (E := E) (S := S) s deploy sig sig_alg =
      Except.ok "OK" ∧
    ∀ err : String,
      validate_signatures (E := E) (S := S) s deploy sig sig_alg ≠
        Except.error (Error.signatureError err) :=
  ⟨rfl, fun _ h => Except.noConfusion h⟩

/-- Witness for C5 at a concrete (vacuously "invalid") deploy. -/
theorem validate_signatures_always_ok_witness :
    validate_signatures (E := Unit) (S := Unit) (EngineState.mk ()) [] []
        "ed25519" = Except.ok "OK" :=
  (validate_signatures_always_ok (EngineState.mk ()) [] [] "ed25519").1

end Engine

namespace MainPurse

/-- C6: in the main-purse contract, a missing argument 0 reverts with exit
code 100 (`MissingArgument`), a present argument that fails type decoding
reverts with exit code 101 (`InvalidArgument`), and the two exit codes are
distinct. -/
theorem main_purse_distinct_arg_errors :
    (∀ mp : PurseId,
      call none mp = Outcome.revert ContractError.missingArgument.code) ∧
    (∀ (e : String) (mp : PurseId),
      call (some (Except.error e)) mp =
        Outcome.revert ContractError.invalidArgument.code) ∧
    ContractError.missingArgument.code = 100 ∧
    ContractError.invalidArgument.code = 101 ∧
    ContractError.missingArgument.code ≠ ContractError.invalidArgument.code :=
  ⟨fun _ => rfl, fun _ _ => rfl, rfl, rfl, by decide⟩

/-- Witness for C6 at a concrete main purse. -/
theorem main_purse_distinct_arg_errors_witness :
    call none (PurseId.mk 0) = Outcome.revert 100 ∧
    call (some (Except.error "wrong shape")) (PurseId.mk 0) =
      Outcome.revert 101 :=
  ⟨main_purse_distinct_arg_errors.1 (PurseId.mk 0),
    main_purse_distinct_arg_errors.2.1 "wrong shape" (PurseId.mk 0)⟩

end MainPurse

namespace Merge

/-- C7 (counterexample): fails as stated — a `Write` of a non-accumulator
value followed by an `Add` followed by a final `Write(v)` merges to
`TypeMismatch`, not to `Write(v)`. -/
theorem write_add_write_counterexample :
    mergeAll [Transform.write (Value.dataVal []), Transform.add 1,
        Transform.write (Value.intVal 5)] =
      Except.error MergeError.typeMismatch ∧
    (Except.error MergeError.typeMismatch :
        Except MergeError (Option Transform)) ≠
      Except.ok (some (Transform.write (Value.intVal 5))) :=
  ⟨rfl, fun h => Except.noConfusion h⟩

lemma mergeList_write_int_adds (v : Value) :
    ∀ (ds : List Int) (m : Int),
      mergeList (some (Transform.write (Value.intVal m)))
          (ds.map Transform.add ++ [Transform.write v]) =
        Except.ok (some (Transform.write v))
  | [], _ => by simp [mergeList, mergeStep]
  | d :: ds, m => by
      simp only [List.map_cons, List.cons_append, mergeList, mergeStep]
      exact mergeList_write_int_adds v ds (m + d)

/-- C7 (amended): a `Write` of an accumulator-compatible value followed by any
number of `Add`s followed by a final `Write(v)` merges, per the left-to-right
fold of the §4.3 table, to exactly `Write(v)`. -/
theorem merge_write_adds_write (n : Int) (ds : List Int) (v : Value) :
    mergeAll (Transform.write (Value.intVal n) ::
        (ds.map Transform.add ++ [Transform.write v])) =
      Except.ok (some (Transform.write v)) := by
  unfold mergeAll
  simp only [mergeList, mergeStep]
  exact mergeList_write_int_adds v ds n

/-- Witness for the amended C7 at a concrete sequence. -/
theorem merge_write_adds_write_witness :
    mergeAll (Transform.write (Value.intVal 1) ::
        ([2, 3].map Transform.add ++ [Transform.write (Value.intVal 9)])) =
      Except.ok (some (Transform.write (Value.intVal 9))) :=
  merge_write_adds_write 1 [2, 3] (Value.intVal 9)

end Merge

namespace CheckUrefs

/-- C8 (code evaluated at the failing input): a named-key uref whose rights
are readable AND writeable AND addable makes `call()` return normally — the
first `assert!(...all(is_readable))` exhausts the shared iterator, so the
addable/writeable asserts inspect an empty remainder — while a non-readable
uref does trap. -/
theorem check_urefs_misses_writeable :
    call [Key.uref (URef.mk 0 (some (AccessRights.mk true true true)))] =
      Outcome.ok ∧
    ((accessRightsList
        [Key.uref (URef.mk 0 (some (AccessRights.mk true true true)))]).any
      (fun ar => ar.is_writeable) = true) ∧
    ((accessRightsList
        [Key.uref (URef.mk 0 (some (AccessRights.mk true true true)))]).any
      (fun ar => ar.is_addable) = true) ∧
    call [Key.uref (URef.mk 1 (some (AccessRights.mk false false false)))] =
      Outcome.trap :=
  ⟨rfl, rfl, rfl, rfl⟩

end CheckUrefs

namespace TestSupport

/-- C9: `get_account` returns `Some(account)` exactly when the transform map
holds, for that key, `Transform::Write(StoredValue::Account(account))`; an
absent key, an `Add`, an `Identity`, a `Failure`, or a `Write` of a
non-`Account` stored value all yield `None`. -/
theorem get_account_write_account_iff
    (transforms : Key → Option Transform) (k : Key) (a : Account) :
    get_account transforms k = some a ↔
      transforms k = some (Transform.write (StoredValue.account a)) := by
  unfold get_account
  cases h : transforms k with
  | none => simp
  | some t =>
    cases t with
    | write sv => cases sv <;> simp
    | identity => simp
    | add i => simp
    | failure m => simp

/-- Witness for C9 at a concrete transform map. -/
theorem get_account_write_account_iff_witness :
    get_account
        (fun _ => some (Transform.write (StoredValue.account (Account.mk 3)))) 0 =
        some (Account.mk 3) ↔
      (fun (_ : Key) =>
          some (Transform.write (StoredValue.account (Account.mk 3)))) 0 =
        some (Transform.write (StoredValue.account (Account.mk 3))) :=
  get_account_write_account_iff
    (fun _ => some (Transform.write (StoredValue.account (Account.mk 3)))) 0
    (Account.mk 3)

lemma tryWasmPaths_snd (fs : FileSystem) (f : PathBuf) :
    ∀ (ws : List PathBuf) (acc : List PathBuf),
      (tryWasmPaths fs f acc ws).2 =
        firstHit fs (ws.map (fun w => w.pushed f))
  | [], _ => rfl
  | w :: ws, acc => by
      simp only [tryWasmPaths, List.map_cons, firstHit]
      cases h : fs (w.pushed f) with
      | some b => simp [h]
      | none => simp only [h]; exact tryWasmPaths_snd fs f ws (acc ++ [w.pushed f])

lemma tryWasmPaths_fst_none (fs : FileSystem) (f : PathBuf) :
    ∀ (ws : List PathBuf) (acc : List PathBuf),
      firstHit fs (ws.map (fun w => w.pushed f)) = none →
      tryWasmPaths fs f acc ws = (acc ++ ws.map (fun w => w.pushed f), none)
  | [], acc, _ => by simp [tryWasmPaths]
  | w :: ws, acc, h => by
      simp only [List.map_cons, firstHit] at h
      cases hw : fs (w.pushed f) with
      | some b => rw [hw] at h; exact absurd h (by simp)
      | none =>
          rw [hw] at h
          simp only [tryWasmPaths, List.map_cons, hw]
          rw [tryWasmPaths_fst_none fs f ws (acc ++ [w.pushed f]) h]
          simp

lemma firstHit_append (fs : FileSystem) :
    ∀ (l1 l2 : List PathBuf),
      firstHit fs (l1 ++ l2) =
        match firstHit fs l1 with
        | some b => some b
        | none => firstHit fs l2
  | [], l2 => rfl
  | p :: l1, l2 => by
      simp only [List.cons_append, firstHit]
      cases h : fs p with
      | some b => rfl
      | none => exact firstHit_append fs l1 l2

lemma read_wasm_file_bytes_eq_firstHit (fs : FileSystem)
    (wasm_paths : List PathBuf) (contract_file : PathBuf)
    (h : contract_file.is_relative = true) :
    read_wasm_file_bytes fs wasm_paths contract_file =
      match firstHit fs (wasm_paths.map (fun w => w.pushed contract_file) ++
          [contract_file]) with
      | some bytes => Except.ok bytes
      | none =>
          Except.error (wasm_paths.map (fun w => w.pushed contract_file) ++
            [contract_file]) := by
  unfold read_wasm_file_bytes
  rw [h]
  rw [firstHit_append fs (wasm_paths.map (fun w => w.pushed contract_file))
    [contract_file]]
  cases hf : firstHit fs (wasm_paths.map (fun w => w.pushed contract_file)) with
  | some b =>
      have h2 := tryWasmPaths_snd fs contract_file wasm_paths []
      rw [hf] at h2
      simp only [if_true]
      rcases hp : tryWasmPaths fs contract_file [] wasm_paths with ⟨att, r⟩
      rw [hp] at h2
      simp only at h2
      rw [h2]
  | none =>
      rw [tryWasmPaths_fst_none fs contract_file wasm_paths [] hf]
      simp only [List.nil_append, firstHit]
      cases hb : fs contract_file with
      | some b => simp [hb]
      | none => simp [hb]

/-- C10: for every relative contract file path, `read_wasm_file_bytes`
returns the contents of the file found at the first candidate — the candidate
directories tried in the fixed order workspace release dir, tool wasm dir,
then the optional `CARGO_TARGET_DIR` dir, falling back to the path as given —
and when no candidate is readable it fails listing every attempted path,
never returning bytes: it coincides with `read_wasm_claimed`, the transcription
of the claim. -/
theorem read_wasm_file_bytes_search_order (fs : FileSystem)
    (rust_workspace_wasm_path rust_tool_wasm_path : PathBuf)
    (maybe_cargo_target_dir_wasm_path : Option PathBuf)
    (contract_file : PathBuf)
    (h : contract_file.is_relative = true) :
    read_wasm_file_bytes fs
        (get_compiled_wasm_paths rust_workspace_wasm_path rust_tool_wasm_path
          maybe_cargo_target_dir_wasm_path) contract_file =
      read_wasm_claimed fs rust_workspace_wasm_path rust_tool_wasm_path
        maybe_cargo_target_dir_wasm_path contract_file := by
  rw [read_wasm_file_bytes_eq_firstHit fs _ contract_file h]
  rfl

/-- Witness for C10 at a concrete relative path and an empty file system. -/
theorem read_wasm_file_bytes_search_order_witness :
    (PathBuf.mk true "a.wasm").is_relative = true ∧
    read_wasm_file_bytes (fun _ => none)
        (get_compiled_wasm_paths (PathBuf.mk false "release")
          (PathBuf.mk true "wasm") none) (PathBuf.mk true "a.wasm") =
      read_wasm_claimed (fun _ => none) (PathBuf.mk false "release")
        (PathBuf.mk true "wasm") none (PathBuf.mk true "a.wasm") :=
  ⟨rfl, read_wasm_file_bytes_search_order (fun _ => none) _ _ none _ rfl⟩

end TestSupport
